import Mathlib

/-!
Shallow embedding of the adaptive query-processing pipeline of the
data-assistant repository: the complexity scorers
(`_assess_query_complexity` of both `ReAct_agent.py` snapshots), the SQL
concept classifier, the cognitive-assessment engine with its deterministic
fallback (`clt_cft_agent.py`), the user-profile store with its history cap
and promotion rule, and the result size-limiting step.

Python strings are embedded as Lean `String`; `str.upper` as a map of
`Char.toUpper` over the characters, `in` (substring test) as list-infix
containment of the character lists, and `str.count` as an explicit
left-to-right non-overlapping occurrence counter.  Python dicts that the claims touch
are embedded as association lists with first-match lookup.  External
effects (the Anthropic API call, `json.loads` on its reply, the CSV user
store, wall-clock timestamps) are passed in as explicit inputs.
-/

namespace DataAssistant

/-- Fuel-driven worker for `countOccs` (structural recursion on the
fuel, so that the kernel can evaluate it). -/
def countOccsAux (pat : List Char) : List Char → Nat → Nat
  | _, 0 => 0
  | [], _ + 1 => 0
  | c :: cs, fuel + 1 =>
    match pat with
    | [] => 0
    | p :: ps =>
      if (p :: ps) <+: (c :: cs) then
        countOccsAux (p :: ps) (cs.drop ps.length) fuel + 1
      else
        countOccsAux (p :: ps) cs fuel

/-- Non-overlapping occurrence count, scanning left to right and skipping
the length of the pattern after each match: the embedding of Python
`str.count` for a non-empty pattern (the empty-pattern case is never used
by the code).  The text shrinks by at least one character per step, so
`l.length` fuel always suffices. -/
def countOccs (pat l : List Char) : Nat :=
  countOccsAux pat l l.length

/-- Embedding of Python `str.upper`, mapping `Char.toUpper` over the
characters (ASCII case mapping; every keyword the code compares against
is ASCII). -/
def pyUpper (s : String) : String :=
  ⟨s.data.map Char.toUpper⟩

/-- Embedding of Python `keyword in text` (substring containment). -/
def strContains (text kw : String) : Bool :=
  decide (kw.data <:+: text.data)

/-- Lookup with default in an association list: embedding of Python
`d.get(k, v)` (and of `d[k]` where the key is known to be present). -/
def dictGetD (d : List (String × Nat)) (k : String) (v : Nat) : Nat :=
  match d with
  | [] => v
  | p :: rest => if p.1 == k then p.2 else dictGetD rest k v

/-- Key update in an association list: embedding of Python `d[k] = v`
(replaces the binding if the key is present, appends it otherwise). -/
def dictInsert (d : List (String × Nat)) (k : String) (v : Nat) :
    List (String × Nat) :=
  match d with
  | [] => [(k, v)]
  | p :: rest => if p.1 == k then (k, v) :: rest else p :: dictInsert rest k v

/-- Python slice `l[-n:]`: the last `n` elements (all of them when the
list is shorter). -/
def takeLast (n : Nat) (l : List α) : List α :=
  l.drop (l.length - n)

/-- `QueryResult` dataclass of `ReAct_agent.py`.  The pandas `DataFrame`
in `data` is embedded as a list of rows of an arbitrary row type `ρ`
(`df.head(n)` becomes `List.take n`, `len(df)` the list length);
`error_message` is `Optional[str]`; `execution_time` (a Python float) is
carried opaquely and never computed with. -/
structure QueryResult (ρ : Type) where
  success : Bool
  data : Option (List ρ)
  sql_query : String
  error_message : Option String
  execution_time : Float
  complexity_score : Nat
deriving Repr

/-- `CognitiveAssessment` dataclass of `clt_cft_agent.py`. -/
structure CognitiveAssessment where
  intrinsic_load : Nat
  task_sql_concept : String
  explanation_needed : Bool
  explanation_type : String
  reasoning : String
deriving Repr, DecidableEq

/-- One entry of `prior_query_history`: the dict literal built in
`_update_user_profile` (note the `sql_query` argument is *not* stored). -/
structure Interaction where
  timestamp : String
  user_query : String
  task_sql_concept : String
  intrinsic_load : Nat
  explanation_provided : Bool
  explanation_type : String
deriving Repr, DecidableEq

/-- `UserProfile` dataclass of `clt_cft_agent.py`. -/
structure UserProfile where
  user_id : String
  sql_expertise_level : Nat
  cognitive_load_capacity : Nat
  sql_concept_levels : List (String × Nat)
  prior_query_history : List Interaction
  learning_preferences : List (String × String)
  last_updated : String
deriving Repr, DecidableEq

/-- The `self.sql_concepts` keyword table of `CLTCFTAgent.__init__`. -/
def sqlConcepts : List (String × List String) :=
  [("basic_select", ["SELECT", "FROM", "WHERE"]),
   ("aggregation", ["GROUP BY", "ORDER BY", "HAVING", "SUM", "COUNT",
                    "AVG", "MAX", "MIN"]),
   ("joins", ["JOIN", "INNER JOIN", "LEFT JOIN", "RIGHT JOIN"]),
   ("advanced_logic", ["SUBQUERY", "CASE WHEN", "UNION", "EXISTS"]),
   ("window_functions", ["WINDOW", "PARTITION BY", "ROW_NUMBER", "RANK"]),
   ("advanced_analytics", ["CTE", "WITH", "RECURSIVE"])]

/-- Keyword list of one concept bucket (`self.sql_concepts[name]`). -/
def conceptKeywords (name : String) : List String :=
  match sqlConcepts.find? (fun p => p.1 == name) with
  | some p => p.2
  | none => []

/-- `any(keyword in sql_upper for keyword in kws)`. -/
def anyKeywordIn (sqlUpper : String) (kws : List String) : Bool :=
  kws.any (fun k => strContains sqlUpper k)

/-- `CLTCFTAgent._classify_sql_task`: bucket a statement into one SQL
concept, most specific first. -/
def classifySqlTask (sql_query : String) : String :=
  let sql_upper := pyUpper sql_query
  if anyKeywordIn sql_upper (conceptKeywords "advanced_analytics") then
    "advanced_analytics"
  else if anyKeywordIn sql_upper (conceptKeywords "window_functions") then
    "window_functions"
  else if anyKeywordIn sql_upper (conceptKeywords "advanced_logic") then
    "advanced_logic"
  else if anyKeywordIn sql_upper (conceptKeywords "joins") then
    "joins"
  else if anyKeywordIn sql_upper (conceptKeywords "aggregation") then
    "aggregation"
  else
    "basic_select"

/-- The decision triple returned by `_fallback_decision` (and expected,
as JSON, from the delegated path). -/
structure Decision where
  explanation_needed : Bool
  explanation_type : String
  reasoning : String
deriving Repr, DecidableEq

/-- `CLTCFTAgent._fallback_decision`: deterministic decision rule used
when the delegated (LLM) path is unavailable. -/
def fallbackDecision (user_sql_expertise task_complexity : Nat) : Decision :=
  if task_complexity > user_sql_expertise then
    { explanation_needed := true
      explanation_type :=
        if user_sql_expertise ≤ 2 then "basic"
        else if user_sql_expertise = 3 then "intermediate"
        else "advanced"
      reasoning := "Fallback: Task complexity (" ++ toString task_complexity
        ++ ") > User expertise (" ++ toString user_sql_expertise ++ ")" }
  else
    { explanation_needed := false
      explanation_type := "none"
      reasoning := "Fallback: User can handle task complexity ("
        ++ toString task_complexity ++ ") with expertise level ("
        ++ toString user_sql_expertise ++ ")" }

/-- A JSON value as far as the delegated-decision reply is observed by
the code (booleans and strings are the only value shapes the three
required fields can usefully carry). -/
inductive JsonVal where
  | bool : Bool → JsonVal
  | str : String → JsonVal
deriving Repr, DecidableEq

/-- A parsed JSON object: association list of fields. -/
def JsonObj := List (String × JsonVal)

/-- Python truthiness of a JSON value (`if explanation_needed:`):
a boolean is itself, a string is truthy iff non-empty. -/
def truthy : JsonVal → Bool
  | .bool b => b
  | .str s => !s.isEmpty

/-- `key in decision` for a parsed JSON object. -/
def hasKey (o : JsonObj) (k : String) : Bool :=
  (List.find? (fun p => p.1 == k) o).isSome

/-- `decision[k]` after the three required keys were validated (total
lookup; the default branch is unreachable in validated use). -/
def jlookup (o : JsonObj) (k : String) : JsonVal :=
  match List.find? (fun p => p.1 == k) o with
  | some p => p.2
  | none => .str ""

/-- The decision dict literal returned by `_fallback_decision`. -/
def decisionToJson (d : Decision) : JsonObj :=
  [("explanation_needed", .bool d.explanation_needed),
   ("explanation_type", .str d.explanation_type),
   ("reasoning", .str d.reasoning)]

/-- Outcome of the external call inside
`_ask_llm_for_explanation_decision`, made explicit as an input:
`apiError` is any exception raised by the Anthropic client call (incl.
transport failure and timeout), `parseError` a reply on which
`json.loads` raises `JSONDecodeError`, and `parsed` a reply that parsed
to a JSON object. -/
inductive LLMResult where
  | apiError : String → LLMResult
  | parseError : String → LLMResult
  | parsed : JsonObj → LLMResult

/-- True exactly when `_ask_llm_for_explanation_decision` takes one of
its fallback branches: API exception, JSON decode error, or a parsed
reply missing one of the three required fields. -/
def fallbackUsed : LLMResult → Bool
  | .apiError _ => true
  | .parseError _ => true
  | .parsed o => !(hasKey o "explanation_needed" && hasKey o "explanation_type"
      && hasKey o "reasoning")

/-- `CLTCFTAgent._ask_llm_for_explanation_decision`: return the parsed
reply when it is a JSON object carrying all three required fields,
otherwise the deterministic fallback decision.  Every branch returns a
value (the Python code catches every exception on this path), which is
why this embedding is a total function.  The `task_concept` and
`sql_query` arguments only feed the outgoing prompt. -/
def askLlmForExplanationDecision (user_sql_expertise task_complexity : Nat)
    (_task_concept _sql_query : String) (outcome : LLMResult) : JsonObj :=
  match outcome with
  | .apiError _ => decisionToJson (fallbackDecision user_sql_expertise task_complexity)
  | .parseError _ => decisionToJson (fallbackDecision user_sql_expertise task_complexity)
  | .parsed decision =>
    if hasKey decision "explanation_needed" && hasKey decision "explanation_type"
        && hasKey decision "reasoning" then
      decision
    else
      decisionToJson (fallbackDecision user_sql_expertise task_complexity)

/-- `CLTCFTAgent._create_default_user_profile`.  The wall-clock
`datetime.now().isoformat()` is passed in as `now`. -/
def createDefaultUserProfile (user_id now : String) : UserProfile :=
  { user_id := user_id
    sql_expertise_level := 2
    cognitive_load_capacity := 2
    sql_concept_levels :=
      [("basic_select", 2), ("aggregation", 1), ("joins", 1),
       ("advanced_logic", 1), ("window_functions", 1),
       ("advanced_analytics", 1)]
    prior_query_history := []
    learning_preferences := [("explanation_style", "step_by_step")]
    last_updated := now }

/-- `CLTCFTAgent._create_user_profile_from_csv`.  `csv` is the
`sql_expertise_level` the external `UserManager` found for the user;
`none` covers both "user not in the CSV" and any exception on that path,
which the code folds into the default profile. -/
def createUserProfileFromCsv (user_id : String) (csv : Option Nat)
    (now : String) : UserProfile :=
  match csv with
  | some e =>
    { user_id := user_id
      sql_expertise_level := e
      cognitive_load_capacity := max 1 (min 3 (e - 1))
      sql_concept_levels :=
        [("basic_select", min e 3), ("aggregation", max 1 (e - 1)),
         ("joins", max 1 (e - 2)), ("advanced_logic", max 1 (e - 3)),
         ("window_functions", max 1 (e - 4)),
         ("advanced_analytics", max 1 (e - 4))]
      prior_query_history := []
      learning_preferences := [("explanation_style", "step_by_step")]
      last_updated := now }
  | none => createDefaultUserProfile user_id now

/-- The `if user_id not in self.user_profiles: ... create` pattern that
guards every profile use: return the stored profile, or the one built
from the CSV source (default on CSV miss). -/
def getOrCreateProfile (store : List (String × UserProfile))
    (user_id : String) (csv : Option Nat) (now : String) : UserProfile :=
  match List.find? (fun p => p.1 == user_id) store with
  | some p => p.2
  | none => createUserProfileFromCsv user_id csv now

/-- `CLTCFTAgent._llm_based_cognitive_assessment`: intrinsic load is the
scorer's complexity, the concept comes from `_classify_sql_task`, and
the explanation decision from the delegated call (with deterministic
fallback). -/
def llmBasedCognitiveAssessment (store : List (String × UserProfile))
    (user_id : String) (csv : Option Nat) (now : String) {ρ : Type}
    (react_result : QueryResult ρ) (outcome : LLMResult) :
    CognitiveAssessment :=
  let user_profile := getOrCreateProfile store user_id csv now
  let intrinsic_load := react_result.complexity_score
  let task_concept := classifySqlTask react_result.sql_query
  let explanation_decision := askLlmForExplanationDecision
    user_profile.sql_expertise_level intrinsic_load task_concept
    react_result.sql_query outcome
  let explanation_needed := truthy (jlookup explanation_decision "explanation_needed")
  let explanation_type :=
    if explanation_needed then jlookup explanation_decision "explanation_type"
    else .str "none"
  let reasoning := jlookup explanation_decision "reasoning"
  { intrinsic_load := intrinsic_load
    task_sql_concept := task_concept
    explanation_needed := explanation_needed
    explanation_type := (match explanation_type with
      | .str s => s
      | .bool b => if b then "True" else "False")
    reasoning := (match reasoning with
      | .str s => s
      | .bool b => if b then "True" else "False") }

/-- Rendering of `Optional[str]` inside an f-string (`None` prints as
"None"). -/
def renderOptStr : Option String → String
  | some s => s
  | none => "None"

/-- `CLTCFTAgent.process_react_output`: short-circuit failed query
results to the fixed error assessment, otherwise run the LLM-based
assessment. -/
def processReactOutput (store : List (String × UserProfile))
    (user_id : String) (csv : Option Nat) (now : String) {ρ : Type}
    (react_result : QueryResult ρ) (outcome : LLMResult) :
    CognitiveAssessment :=
  if react_result.success then
    llmBasedCognitiveAssessment store user_id csv now react_result outcome
  else
    { intrinsic_load := 5
      task_sql_concept := "error"
      explanation_needed := true
      explanation_type := "error_handling"
      reasoning := "Query execution failed: "
        ++ renderOptStr react_result.error_message }

/-- `CLTCFTAgent._modify_query_result_simple`: copy the result and, when
it succeeded with data present, truncate the data to the first 5 rows
(when intrinsic load exceeds the user's cognitive capacity) or the first
15 rows (otherwise). -/
def modifyQueryResultSimple (store : List (String × UserProfile))
    (user_id : String) (csv : Option Nat) (now : String) {ρ : Type}
    (react_result : QueryResult ρ)
    (cognitive_assessment : CognitiveAssessment) : QueryResult ρ :=
  let user_profile := getOrCreateProfile store user_id csv now
  let modified_result : QueryResult ρ :=
    { success := react_result.success
      data := react_result.data
      sql_query := react_result.sql_query
      error_message := react_result.error_message
      execution_time := react_result.execution_time
      complexity_score := react_result.complexity_score }
  match react_result.data, react_result.success with
  | some d, true =>
    if cognitive_assessment.intrinsic_load > user_profile.cognitive_load_capacity then
      { modified_result with data := some (d.take (min 5 d.length)) }
    else
      { modified_result with data := some (d.take (min 15 d.length)) }
  | _, _ => modified_result

/-- `CLTCFTAgent._update_user_profile` (per-profile transformation; the
caller guarantees the profile exists in `self.user_profiles`).  Appends
the interaction dict, keeps the last 10 history entries, and promotes
the concept level when the user handled load ≥ 4 unaided.  `now` stands
for the `datetime.now().isoformat()` calls.  The `_sql_query` argument
is accepted but, as in the code, never stored. -/
def updateUserProfile (profile : UserProfile) (now user_query : String)
    (_sql_query : String) (assessment : CognitiveAssessment) : UserProfile :=
  let interaction : Interaction :=
    { timestamp := now
      user_query := user_query
      task_sql_concept := assessment.task_sql_concept
      intrinsic_load := assessment.intrinsic_load
      explanation_provided := assessment.explanation_needed
      explanation_type := assessment.explanation_type }
  let history := takeLast 10 (profile.prior_query_history ++ [interaction])
  let levels :=
    if assessment.intrinsic_load ≥ 4 ∧ assessment.explanation_needed = false then
      let current_level := dictGetD profile.sql_concept_levels
        assessment.task_sql_concept 1
      dictInsert profile.sql_concept_levels assessment.task_sql_concept
        (min 5 (current_level + 1))
    else
      profile.sql_concept_levels
  { profile with
      prior_query_history := history
      sql_concept_levels := levels
      last_updated := now }

/-- The inputs of one `_update_user_profile` call (one interaction). -/
structure InteractionInput where
  now : String
  user_query : String
  sql_query : String
  assessment : CognitiveAssessment

/-- The history entry an interaction input turns into. -/
def mkInteraction (i : InteractionInput) : Interaction :=
  { timestamp := i.now
    user_query := i.user_query
    task_sql_concept := i.assessment.task_sql_concept
    intrinsic_load := i.assessment.intrinsic_load
    explanation_provided := i.assessment.explanation_needed
    explanation_type := i.assessment.explanation_type }

/-- A sequence of profile updates, oldest first. -/
def applyInteractions (profile : UserProfile) (l : List InteractionInput) :
    UserProfile :=
  l.foldl (fun p i => updateUserProfile p i.now i.user_query i.sql_query
    i.assessment) profile

/-- The `self.complexity_patterns` table of the
`data_assistant_project` snapshot's `ReActAgent.__init__`. -/
def complexityPatterns : List (Nat × List String) :=
  [(1, ["SELECT", "simple"]),
   (2, ["WHERE", "GROUP BY", "ORDER BY"]),
   (3, ["JOIN", "INNER JOIN", "LEFT JOIN"]),
   (4, ["SUBQUERY", "HAVING", "CASE WHEN"]),
   (5, ["WINDOW FUNCTION", "CTE", "MULTIPLE JOINS"])]

/-- `ReActAgent._assess_query_complexity` of the `data_assistant_project`
snapshot: max level over matching patterns, escalation to 4 for more than
one SELECT, to 5 for more than one JOIN, clamped to 5. -/
def assessQueryComplexityV1 (sql_query : String) : Nat :=
  let sql_upper := pyUpper sql_query
  let complexity_score := complexityPatterns.foldl
    (fun score lp => lp.2.foldl
      (fun s pattern => if strContains sql_upper pattern then max s lp.1 else s)
      score)
    1
  let complexity_score :=
    if countOccs "SELECT".data sql_upper.data > 1 then max complexity_score 4
    else complexity_score
  let complexity_score :=
    if countOccs "JOIN".data sql_upper.data > 1 then max complexity_score 5
    else complexity_score
  min complexity_score 5

/-- The `complexity_features` table of the `new_data_assistant_project`
snapshot's `_assess_query_complexity`. -/
def complexityFeatures : List (String × Nat) :=
  [("JOIN", 2), ("GROUP BY", 1), ("HAVING", 1), ("WINDOW", 2),
   ("WITH", 2), ("UNION", 1), ("SUBQUERY", 2), ("CASE", 1)]

/-- `ReActAgent._assess_query_complexity` of the
`new_data_assistant_project` snapshot: additive feature scoring, extra
points for more than two JOINs and for a second SELECT, clamped to 5. -/
def assessQueryComplexityV2 (sql_query : String) : Nat :=
  if sql_query.isEmpty then 1
  else
    let sql_upper := pyUpper sql_query
    let complexity := complexityFeatures.foldl
      (fun c fs => if strContains sql_upper fs.1 then c + fs.2 else c) 1
    let join_count := countOccs "JOIN".data sql_upper.data
    let complexity := if join_count > 2 then complexity + (join_count - 2)
      else complexity
    let complexity :=
      if countOccs "SELECT".data sql_upper.data > 1 then complexity + 1
      else complexity
    min complexity 5

/-- The six concept buckets: the keys of the `self.sql_concepts` table. -/
def validConcepts : List String :=
  sqlConcepts.map Prod.fst

/-- Sample profile used to exercise the theorems on concrete inputs. -/
def sampleProfile : UserProfile :=
  createDefaultUserProfile "alice" "2026-01-01T00:00:00"

/-- Sample assessment of a trivial successful interaction. -/
def sampleAssessment : CognitiveAssessment :=
  { intrinsic_load := 2
    task_sql_concept := "basic_select"
    explanation_needed := false
    explanation_type := "none"
    reasoning := "ok" }

/-- Sample input of one profile update. -/
def sampleInput : InteractionInput :=
  { now := "2026-01-02T00:00:00"
    user_query := "show sales"
    sql_query := "SELECT 1"
    assessment := sampleAssessment }

/-- Fifteen sequential interactions for one user. -/
def fifteenInputs : List InteractionInput :=
  List.replicate 15 sampleInput

/-- Profile with `concept_levels["joins"] = 2`, as in the promotion
example of the spec. -/
def promoProfile : UserProfile :=
  { user_id := "bob"
    sql_expertise_level := 3
    cognitive_load_capacity := 3
    sql_concept_levels := [("joins", 2)]
    prior_query_history := []
    learning_preferences := []
    last_updated := "" }

/-- A high-load "joins" interaction handled without explanation. -/
def promoAssessment : CognitiveAssessment :=
  { intrinsic_load := 4
    task_sql_concept := "joins"
    explanation_needed := false
    explanation_type := "none"
    reasoning := "handled unaided" }

/-- A failed query result. -/
def failedResult : QueryResult Unit :=
  { success := false
    data := none
    sql_query := ""
    error_message := some "no such table: orders"
    execution_time := 0.0
    complexity_score := 1 }

/-- A successful low-complexity query result. -/
def successResult : QueryResult Nat :=
  { success := true
    data := some [10, 20, 30]
    sql_query := "SELECT 1"
    error_message := none
    execution_time := 0.0
    complexity_score := 2 }

/-- An expert's profile (expertise level 5). -/
def expertProfile : UserProfile :=
  { user_id := "eve"
    sql_expertise_level := 5
    cognitive_load_capacity := 5
    sql_concept_levels := [("basic_select", 5)]
    prior_query_history := []
    learning_preferences := []
    last_updated := "" }

/-- A well-formed delegated reply that asks for an explanation. -/
def delegatedYesReply : JsonObj :=
  [("explanation_needed", .bool true),
   ("explanation_type", .str "advanced"),
   ("reasoning", .str "subtle aggregation semantics")]

/-! ### Helper lemmas -/

theorem dictGetD_insert_self (d : List (String × Nat)) (k : String)
    (v w : Nat) : dictGetD (dictInsert d k v) k w = v := by
  induction d with
  | nil => simp [dictGetD, dictInsert]
  | cons p rest ih =>
    by_cases h : p.1 = k
    · simp [dictGetD, dictInsert, h]
    · simpa [dictGetD, dictInsert, h] using ih

theorem dictGetD_insert_ne (d : List (String × Nat)) (k k' : String)
    (v w : Nat) (h : k' ≠ k) :
    dictGetD (dictInsert d k v) k' w = dictGetD d k' w := by
  induction d with
  | nil => simp [dictGetD, dictInsert, Ne.symm h]
  | cons p rest ih =>
    by_cases hp : p.1 = k
    · simp [dictGetD, dictInsert, hp, Ne.symm h]
    · by_cases hp' : p.1 = k'
      · simp [dictGetD, dictInsert, hp, hp', h]
      · simpa [dictGetD, dictInsert, hp, hp'] using ih

theorem length_takeLast_le (n : Nat) (l : List α) :
    (takeLast n l).length ≤ n := by
  simp only [takeLast, List.length_drop]
  omega

theorem takeLast_append_of_le (n : Nat) (xs ys : List α)
    (h : n ≤ ys.length) : takeLast n (xs ++ ys) = takeLast n ys := by
  simp only [takeLast, List.length_append, List.drop_append_eq_append_drop]
  rw [List.drop_eq_nil_of_le (by omega), List.nil_append]
  congr 1
  omega

theorem length_takeLast_of_le (n : Nat) (l : List α) (h : n ≤ l.length) :
    (takeLast n l).length = n := by
  simp only [takeLast, List.length_drop]
  omega

theorem takeLast_takeLast_append (n : Nat) (xs ys : List α) :
    takeLast n (takeLast n xs ++ ys) = takeLast n (xs ++ ys) := by
  rcases Nat.le_total xs.length n with h | h
  · have hx : takeLast n xs = xs := by
      simp [takeLast, Nat.sub_eq_zero_of_le h]
    rw [hx]
  · have hlen : (takeLast n xs).length = n := length_takeLast_of_le n xs h
    simp only [takeLast, List.length_append, hlen,
      List.drop_append_eq_append_drop, List.length_drop, List.drop_drop]
    congr 2
    all_goals omega

theorem updateUserProfile_history (p : UserProfile) (now uq sq : String)
    (a : CognitiveAssessment) :
    (updateUserProfile p now uq sq a).prior_query_history =
      takeLast 10 (p.prior_query_history ++
        [{ timestamp := now, user_query := uq,
           task_sql_concept := a.task_sql_concept,
           intrinsic_load := a.intrinsic_load,
           explanation_provided := a.explanation_needed,
           explanation_type := a.explanation_type }]) := rfl

theorem applyInteractions_history (l : List InteractionInput) :
    ∀ (p : UserProfile) (i : InteractionInput),
    (applyInteractions p (i :: l)).prior_query_history =
      takeLast 10 (p.prior_query_history ++ (i :: l).map mkInteraction) := by
  induction l with
  | nil =>
    intro p i
    simp only [applyInteractions, List.foldl, List.map]
    exact updateUserProfile_history p i.now i.user_query i.sql_query
      i.assessment
  | cons j rest ih =>
    intro p i
    have step : applyInteractions p (i :: j :: rest) =
        applyInteractions (updateUserProfile p i.now i.user_query
          i.sql_query i.assessment) (j :: rest) := rfl
    rw [step, ih, updateUserProfile_history]
    rw [takeLast_takeLast_append]
    simp [mkInteraction]

theorem askLlm_eq_fallback (e c : Nat) (tc sq : String)
    (outcome : LLMResult) (h : fallbackUsed outcome = true) :
    askLlmForExplanationDecision e c tc sq outcome =
      decisionToJson (fallbackDecision e c) := by
  cases outcome with
  | apiError m => rfl
  | parseError m => rfl
  | parsed o =>
    simp only [fallbackUsed, Bool.not_eq_true'] at h
    simp [askLlmForExplanationDecision, h]

theorem truthy_decisionToJson (d : Decision) :
    truthy (jlookup (decisionToJson d) "explanation_needed") =
      d.explanation_needed := rfl

theorem classifySqlTask_mem (s : String) :
    classifySqlTask s ∈ validConcepts := by
  unfold classifySqlTask
  dsimp only
  split
  · decide
  · split
    · decide
    · split
      · decide
      · split
        · decide
        · split
          · decide
          · decide

/-! ### Claim theorems -/

/-- C1 (counterexample): the claim says the deterministic rule returns
`explanation_needed = (l > e * 2)` with `k = 2`.  At expertise `e = 1`
and load `l = 2` the code's `_fallback_decision` returns
`explanation_needed = true`, while `2 > 1 * 2` is false. -/
theorem fallbackDecision_k2_counterexample :
    (fallbackDecision 1 2).explanation_needed = true ∧ ¬(2 > 1 * 2) := by
  decide

/-- C1 (amended): for every expertise `e` and load `l`, the
deterministic `_fallback_decision` returns
`explanation_needed = (l > e)` (that is, `k = 1`, not `k = 2`), and
`explanation_type` is "none" when no explanation is needed, "basic" when
needed and `e ≤ 2`, "intermediate" when needed and `e = 3`, and
"advanced" otherwise. -/
theorem fallbackDecision_rule (e l : Nat) :
    (fallbackDecision e l).explanation_needed = decide (l > e) ∧
    (fallbackDecision e l).explanation_type =
      (if l > e then
        (if e ≤ 2 then "basic" else if e = 3 then "intermediate"
         else "advanced")
       else "none") := by
  by_cases h : l > e <;> simp [fallbackDecision, h]

/-- C2: after every profile update the stored history has at most 10
entries, and after 15 sequential interactions it is exactly the last 10
interactions in chronological order (oldest dropped first,
most-recent-last). -/
theorem history_cap_and_fifo (p : UserProfile) (now uq sq : String)
    (a : CognitiveAssessment) (l : List InteractionInput) :
    (updateUserProfile p now uq sq a).prior_query_history.length ≤ 10 ∧
    (l.length = 15 →
      (applyInteractions p l).prior_query_history =
        takeLast 10 (l.map mkInteraction) ∧
      (applyInteractions p l).prior_query_history.length = 10) := by
  constructor
  · rw [updateUserProfile_history]
    exact length_takeLast_le 10 _
  · intro hlen
    match l, hlen with
    | i :: rest, hlen =>
      have hmap : ((i :: rest).map mkInteraction).length = 15 := by
        simpa using hlen
      have h1 : (applyInteractions p (i :: rest)).prior_query_history =
          takeLast 10 ((i :: rest).map mkInteraction) := by
        rw [applyInteractions_history rest p i,
          takeLast_append_of_le 10 _ _ (by omega)]
      refine ⟨h1, ?_⟩
      rw [h1, length_takeLast_of_le 10 _ (by omega)]

/-- C2 (witness): a concrete run of 15 interactions from the default
profile. -/
theorem history_cap_and_fifo_witness :
    fifteenInputs.length = 15 ∧
    ((applyInteractions sampleProfile fifteenInputs).prior_query_history =
        takeLast 10 (fifteenInputs.map mkInteraction) ∧
      (applyInteractions sampleProfile
        fifteenInputs).prior_query_history.length = 10) :=
  ⟨by decide,
   (history_cap_and_fifo sampleProfile "t" "q" "s" sampleAssessment
     fifteenInputs).2 (by decide)⟩

/-- C3: when an interaction has `intrinsic_load ≥ 4` and
`explanation_needed = false`, the stored level of its concept becomes
the old level plus one, clamped to 5 (so it never exceeds 5), the level
of every other concept is unchanged, and under any other condition
`concept_levels` is completely unchanged. -/
theorem concept_promotion (p : UserProfile) (now uq sq : String)
    (a : CognitiveAssessment) (c : String) :
    (a.intrinsic_load ≥ 4 → a.explanation_needed = false →
      dictGetD (updateUserProfile p now uq sq a).sql_concept_levels
          a.task_sql_concept 1 =
        min 5 (dictGetD p.sql_concept_levels a.task_sql_concept 1 + 1) ∧
      (c ≠ a.task_sql_concept →
        dictGetD (updateUserProfile p now uq sq a).sql_concept_levels c 1 =
          dictGetD p.sql_concept_levels c 1)) ∧
    (¬(a.intrinsic_load ≥ 4 ∧ a.explanation_needed = false) →
      (updateUserProfile p now uq sq a).sql_concept_levels =
        p.sql_concept_levels) := by
  constructor
  · intro h4 hneed
    have hcond : a.intrinsic_load ≥ 4 ∧ a.explanation_needed = false :=
      ⟨h4, hneed⟩
    constructor
    · show dictGetD (if a.intrinsic_load ≥ 4 ∧ a.explanation_needed = false
          then _ else _) a.task_sql_concept 1 = _
      rw [if_pos hcond]
      exact dictGetD_insert_self _ _ _ _
    · intro hc
      show dictGetD (if a.intrinsic_load ≥ 4 ∧ a.explanation_needed = false
          then _ else _) c 1 = _
      rw [if_pos hcond]
      exact dictGetD_insert_ne _ _ _ _ _ hc
  · intro hcond
    show (if a.intrinsic_load ≥ 4 ∧ a.explanation_needed = false
        then _ else _) = _
    rw [if_neg hcond]

/-- C3 (witness): a "joins" interaction with load 4 and no explanation
promotes `concept_levels["joins"]` from 2 to `min 5 (2+1) = 3` and
leaves "aggregation" untouched. -/
theorem concept_promotion_witness :
    (promoAssessment.intrinsic_load ≥ 4 ∧
      promoAssessment.explanation_needed = false) ∧
    dictGetD (updateUserProfile promoProfile "t" "q" "s"
        promoAssessment).sql_concept_levels
      promoAssessment.task_sql_concept 1 =
      min 5 (dictGetD promoProfile.sql_concept_levels
        promoAssessment.task_sql_concept 1 + 1) ∧
    dictGetD (updateUserProfile promoProfile "t" "q" "s"
        promoAssessment).sql_concept_levels "aggregation" 1 =
      dictGetD promoProfile.sql_concept_levels "aggregation" 1 :=
  ⟨⟨by decide, by decide⟩,
   ((concept_promotion promoProfile "t" "q" "s" promoAssessment
       "aggregation").1 (by decide) (by decide)).1,
   ((concept_promotion promoProfile "t" "q" "s" promoAssessment
       "aggregation").1 (by decide) (by decide)).2 (by decide)⟩

/-- C4: for every failed QueryResult, `process_react_output` returns the
fixed error assessment — intrinsic_load 5, concept "error",
explanation_needed true, explanation_type "error_handling", reasoning
"Query execution failed: " followed by the execution error text — and
the right-hand side mentions neither the profile store, the classifier,
nor the delegated-decision outcome, so the result is independent of all
of them. -/
theorem processReactOutput_failure {ρ : Type}
    (store : List (String × UserProfile)) (uid : String)
    (csv : Option Nat) (now : String) (r : QueryResult ρ)
    (outcome : LLMResult) (h : r.success = false) :
    processReactOutput store uid csv now r outcome =
      { intrinsic_load := 5
        task_sql_concept := "error"
        explanation_needed := true
        explanation_type := "error_handling"
        reasoning := "Query execution failed: "
          ++ renderOptStr r.error_message } := by
  unfold processReactOutput
  rw [h]
  simp

/-- C4 (witness): the fixed error assessment at a concrete failed
result, independent of a non-empty store and an arbitrary outcome. -/
theorem processReactOutput_failure_witness :
    failedResult.success = false ∧
    processReactOutput [("eve", expertProfile)] "eve" none "t"
        failedResult (.parsed delegatedYesReply) =
      { intrinsic_load := 5
        task_sql_concept := "error"
        explanation_needed := true
        explanation_type := "error_handling"
        reasoning := "Query execution failed: "
          ++ renderOptStr failedResult.error_message } :=
  ⟨rfl, processReactOutput_failure [("eve", expertProfile)] "eve" none "t"
    failedResult (.parsed delegatedYesReply) rfl⟩

/-- C5 (counterexample): the claim quantifies over both
`_assess_query_complexity` implementations, but the
`new_data_assistant_project` one is additive: "SELECT SELECT" contains
the SELECT keyword twice yet scores 2, not ≥ 4. -/
theorem complexity_escalation_counterexample :
    countOccs "SELECT".data (pyUpper "SELECT SELECT").data > 1 ∧
    assessQueryComplexityV2 "SELECT SELECT" < 4 := by
  decide

/-- C5 (amended): in the `data_assistant_project` snapshot's scorer,
a statement containing SELECT more than once scores at least 4 and a
statement containing JOIN more than once scores exactly 5 (floored at 5,
then clamped to 5); the additive `new_data_assistant_project` scorer
does not satisfy this. -/
theorem complexity_escalation_v1 (s : String) :
    (countOccs "SELECT".data (pyUpper s).data > 1 →
      4 ≤ assessQueryComplexityV1 s) ∧
    (countOccs "JOIN".data (pyUpper s).data > 1 →
      assessQueryComplexityV1 s = 5) := by
  constructor
  · intro h
    unfold assessQueryComplexityV1
    dsimp only
    rw [if_pos h]
    split <;> omega
  · intro h
    unfold assessQueryComplexityV1
    dsimp only
    rw [if_pos h]
    split <;> omega

/-- C5 (witness): a subquery statement (two SELECTs) scores ≥ 4 and a
two-JOIN statement scores 5 under the V1 scorer. -/
theorem complexity_escalation_v1_witness :
    (countOccs "SELECT".data (pyUpper "SELECT (SELECT 1)").data > 1 ∧
      4 ≤ assessQueryComplexityV1 "SELECT (SELECT 1)") ∧
    (countOccs "JOIN".data (pyUpper "A JOIN B JOIN C").data > 1 ∧
      assessQueryComplexityV1 "A JOIN B JOIN C" = 5) :=
  ⟨⟨by decide,
    (complexity_escalation_v1 "SELECT (SELECT 1)").1 (by decide)⟩,
   ⟨by decide,
    (complexity_escalation_v1 "A JOIN B JOIN C").2 (by decide)⟩⟩

/-- C6 (counterexample): the default profile created on first contact
has `cognitive_load_capacity = 2` (not 3) and
`sql_concept_levels["basic_select"] = 2` (not 1), contradicting the
claimed defaults. -/
theorem default_profile_counterexample :
    (createDefaultUserProfile "u" "t").cognitive_load_capacity ≠ 3 ∧
    dictGetD (createDefaultUserProfile "u" "t").sql_concept_levels
      "basic_select" 0 ≠ 1 := by
  decide

/-- C6 (amended): for a user id with no stored profile and no CSV data,
the first lookup creates and returns the default profile with
expertise_level 2, capacity 2, `basic_select` level 2, every other
concept level 1, and an empty history. -/
theorem default_profile_lookup (store : List (String × UserProfile))
    (uid now : String)
    (h : List.find? (fun p => p.1 == uid) store = none) :
    getOrCreateProfile store uid none now =
      createDefaultUserProfile uid now ∧
    (createDefaultUserProfile uid now).sql_expertise_level = 2 ∧
    (createDefaultUserProfile uid now).cognitive_load_capacity = 2 ∧
    (createDefaultUserProfile uid now).sql_concept_levels =
      [("basic_select", 2), ("aggregation", 1), ("joins", 1),
       ("advanced_logic", 1), ("window_functions", 1),
       ("advanced_analytics", 1)] ∧
    (createDefaultUserProfile uid now).prior_query_history = [] := by
  refine ⟨?_, rfl, rfl, rfl, rfl⟩
  unfold getOrCreateProfile
  rw [h]
  rfl

/-- C6 (witness): first lookup of "alice" in an empty store. -/
theorem default_profile_lookup_witness :
    getOrCreateProfile [] "alice" none "t" =
      createDefaultUserProfile "alice" "t" ∧
    (createDefaultUserProfile "alice" "t").sql_expertise_level = 2 ∧
    (createDefaultUserProfile "alice" "t").cognitive_load_capacity = 2 ∧
    (createDefaultUserProfile "alice" "t").sql_concept_levels =
      [("basic_select", 2), ("aggregation", 1), ("joins", 1),
       ("advanced_logic", 1), ("window_functions", 1),
       ("advanced_analytics", 1)] ∧
    (createDefaultUserProfile "alice" "t").prior_query_history = [] :=
  default_profile_lookup [] "alice" "t" rfl

/-- C7: whenever the delegated decision fails — API/transport error or
timeout, a reply `json.loads` cannot parse, or a parsed reply missing
one of the three required fields — the call returns exactly the
deterministic fallback rule's decision.  The embedding is a total
function: every outcome maps to a value, mirroring the code's
catch-everything handlers (it never raises to its caller). -/
theorem delegation_fallback (e c : Nat) (tc sq : String)
    (outcome : LLMResult) (h : fallbackUsed outcome = true) :
    askLlmForExplanationDecision e c tc sq outcome =
      decisionToJson (fallbackDecision e c) :=
  askLlm_eq_fallback e c tc sq outcome h

/-- C7 (witness): a transport failure at expertise 2, complexity 5 yields
the fallback decision. -/
theorem delegation_fallback_witness :
    fallbackUsed (.apiError "timeout") = true ∧
    askLlmForExplanationDecision 2 5 "joins" "SELECT 1"
        (.apiError "timeout") =
      decisionToJson (fallbackDecision 2 5) :=
  ⟨rfl, delegation_fallback 2 5 "joins" "SELECT 1" (.apiError "timeout")
    rfl⟩

/-- C8 (counterexample): the claim says expertise ≥ 4 with load ≤ 2
forces `explanation_needed = false` regardless of the decision path.
But the code applies no override on the delegated path: for an expertise-5
user, a load-2 successful query and a well-formed delegated reply saying
"explain", the engine returns `explanation_needed = true`. -/
theorem expertise_reversal_counterexample :
    expertProfile.sql_expertise_level = 5 ∧
    successResult.complexity_score = 2 ∧
    (processReactOutput [("eve", expertProfile)] "eve" none "t"
        successResult (.parsed delegatedYesReply)).explanation_needed
      = true := by
  decide

/-- C8 (amended): the suppression holds exactly on the rule-based
(fallback) path: for every successful query whose decision falls back to
the deterministic rule, expertise ≥ 4 and intrinsic load ≤ 2 give
`explanation_needed = false` (in particular expertise 5 with load 2); a
well-formed delegated reply is used as-is and may differ. -/
theorem expertise_reversal_rule_path {ρ : Type}
    (store : List (String × UserProfile)) (uid : String)
    (csv : Option Nat) (now : String) (r : QueryResult ρ)
    (outcome : LLMResult) (hs : r.success = true)
    (hf : fallbackUsed outcome = true)
    (he : 4 ≤ (getOrCreateProfile store uid csv now).sql_expertise_level)
    (hl : r.complexity_score ≤ 2) :
    (processReactOutput store uid csv now r outcome).explanation_needed
      = false := by
  unfold processReactOutput
  rw [hs]
  simp only [if_true]
  unfold llmBasedCognitiveAssessment
  dsimp only
  rw [askLlm_eq_fallback _ _ _ _ outcome hf, truthy_decisionToJson]
  unfold fallbackDecision
  rw [if_neg (by omega)]

/-- C8 (witness): expertise 5, load 2, delegation timed out ⇒ no
explanation. -/
theorem expertise_reversal_rule_path_witness :
    successResult.success = true ∧
    fallbackUsed (.apiError "timeout") = true ∧
    4 ≤ (getOrCreateProfile [("eve", expertProfile)] "eve" none
      "t").sql_expertise_level ∧
    successResult.complexity_score ≤ 2 ∧
    (processReactOutput [("eve", expertProfile)] "eve" none "t"
        successResult (.apiError "timeout")).explanation_needed = false :=
  ⟨rfl, rfl, by decide, by decide,
   expertise_reversal_rule_path [("eve", expertProfile)] "eve" none "t"
     successResult (.apiError "timeout") rfl rfl (by decide) (by decide)⟩

/-- C9 (counterexample): the claim says every assessment's concept is
one of the six buckets, but the error path of `process_react_output`
returns concept "error", which is not in the set. -/
theorem concept_bucket_counterexample :
    (processReactOutput [] "u" none "t" failedResult
        (.apiError "x")).task_sql_concept = "error" ∧
    "error" ∉ validConcepts := by
  decide

/-- C9 (amended): every assessment produced for a *successful* query has
its concept among the six buckets {basic_select, aggregation, joins,
advanced_logic, window_functions, advanced_analytics}; the error path
uses the extra tag "error". -/
theorem concept_bucket_success {ρ : Type}
    (store : List (String × UserProfile)) (uid : String)
    (csv : Option Nat) (now : String) (r : QueryResult ρ)
    (outcome : LLMResult) (hs : r.success = true) :
    (processReactOutput store uid csv now r outcome).task_sql_concept
      ∈ validConcepts := by
  unfold processReactOutput
  rw [hs]
  simp only [if_true]
  exact classifySqlTask_mem r.sql_query

/-- C9 (witness): a concrete successful query's concept is in the six
buckets. -/
theorem concept_bucket_success_witness :
    successResult.success = true ∧
    (processReactOutput [] "u" none "t" successResult
        (.apiError "x")).task_sql_concept ∈ validConcepts :=
  ⟨rfl, concept_bucket_success [] "u" none "t" successResult
    (.apiError "x") rfl⟩

/-- C10: for every successful QueryResult with data present, the
modified result's data is the prefix of the first 5 rows when the
assessed intrinsic load exceeds the user's cognitive capacity, the first
15 rows otherwise, and the success, sql_query, error_message,
execution_time and complexity_score fields are returned unchanged. -/
theorem modify_result_truncation {ρ : Type}
    (store : List (String × UserProfile)) (uid : String)
    (csv : Option Nat) (now : String) (r : QueryResult ρ)
    (a : CognitiveAssessment) (d : List ρ) (hs : r.success = true)
    (hd : r.data = some d) :
    (modifyQueryResultSimple store uid csv now r a).data =
      some (if a.intrinsic_load >
          (getOrCreateProfile store uid csv now).cognitive_load_capacity
        then d.take 5 else d.take 15) ∧
    (modifyQueryResultSimple store uid csv now r a).success = r.success ∧
    (modifyQueryResultSimple store uid csv now r a).sql_query =
      r.sql_query ∧
    (modifyQueryResultSimple store uid csv now r a).error_message =
      r.error_message ∧
    (modifyQueryResultSimple store uid csv now r a).execution_time =
      r.execution_time ∧
    (modifyQueryResultSimple store uid csv now r a).complexity_score =
      r.complexity_score := by
  have htake : ∀ n : Nat, d.take (min n d.length) = d.take n := by
    intro n
    rcases Nat.le_total n d.length with h | h
    · rw [Nat.min_eq_left h]
    · rw [Nat.min_eq_right h, List.take_length,
        List.take_of_length_le h]
  unfold modifyQueryResultSimple
  rw [hd, hs]
  dsimp only
  split
  · rw [htake 5]
    simp_all
  · rw [htake 15]
    simp_all

/-- C10 (witness): a concrete successful 3-row result under the default
profile (capacity 2, load 2): the first 15 rows, i.e. all 3. -/
theorem modify_result_truncation_witness :
    successResult.success = true ∧ successResult.data = some [10, 20, 30] ∧
    (modifyQueryResultSimple [] "u" none "t" successResult
        sampleAssessment).data =
      some (if sampleAssessment.intrinsic_load >
          (getOrCreateProfile [] "u" none "t").cognitive_load_capacity
        then [10, 20, 30].take 5 else [10, 20, 30].take 15) ∧
    (modifyQueryResultSimple [] "u" none "t" successResult
        sampleAssessment).sql_query = successResult.sql_query :=
  ⟨rfl, rfl,
   (modify_result_truncation [] "u" none "t" successResult
     sampleAssessment [10, 20, 30] rfl rfl).1,
   (modify_result_truncation [] "u" none "t" successResult
     sampleAssessment [10, 20, 30] rfl rfl).2.2.1⟩

end DataAssistant
